import Mathlib

/-!
Shallow embedding of `src/bot_app/main.py`, a Telegram bot with a tkinter
front end that downloads an image attachment, sends it to the Cloudmersive
barcode-recognition service, and replies with the decoded DataMatrix text.

Modelling conventions:
* Python exceptions are modelled explicitly: a step that may raise is given
  an outcome type (`ScanOutcome`, `DownloadResult`), and an exception that
  escapes a function appears in the `raised` field of its result record.
* Python truthiness on optional strings and lists is modelled by
  `strTruthy` / `listTruthy` (`None`, `""` and `[]` are falsy).
* `logging.error` and `logging.exception` both record at ERROR severity;
  `logging.warning` at WARNING; `logging.info` at INFO.
* The Cloudmersive response is modelled with the four optional list-valued
  collection fields and three optional string-valued symbol fields that
  `decode_datamatrix` probes with `getattr`, matching the API client's
  schema in which these fields hold lists of symbol records.
-/

inductive Severity
  | error
  | warning
  | info
  deriving Repr, DecidableEq

structure LogMessage where
  severity : Severity
  text : String
  deriving Repr, DecidableEq

/-- One symbol record of the remote service's response, with the three
field-name variants probed by `decode_datamatrix` (lines 320-325). -/
structure Barcode where
  barcode_value : Option String
  BarcodeValue : Option String
  value : Option String
  deriving Repr, DecidableEq

/-- The remote service's response object, with the four collection
field-name variants probed by `decode_datamatrix` (lines 309-314). -/
structure ScanResponse where
  barcodes : Option (List Barcode)
  Barcodes : Option (List Barcode)
  barcode_results : Option (List Barcode)
  BarcodeResults : Option (List Barcode)
  deriving Repr, DecidableEq

/-- Behaviour of `image_path.open` plus `barcode_api.barcode_scan_image`:
an `ApiException`, any other exception (file I/O included), or a normal
return whose value may be `None`. -/
inductive ScanOutcome
  | apiException (msg : String)
  | otherException (msg : String)
  | success (response : Option ScanResponse)
  deriving Repr, DecidableEq

/-- Python truthiness of an optional string: `None` and `""` are falsy. -/
def strTruthy : Option String → Bool
  | none => false
  | some s => s ≠ ""

/-- Python truthiness of an optional list: `None` and `[]` are falsy. -/
def listTruthy : Option (List Barcode) → Bool
  | none => false
  | some [] => false
  | some (_ :: _) => true

/-- The `or`-chain over the four collection field variants
(`main.py` lines 309-314): Python `a or b` yields `a` when truthy,
else `b`, so the chain yields the first truthy field, else the last. -/
def pickBarcodes (r : ScanResponse) : Option (List Barcode) :=
  if listTruthy r.barcodes then r.barcodes
  else if listTruthy r.Barcodes then r.Barcodes
  else if listTruthy r.barcode_results then r.barcode_results
  else r.BarcodeResults

/-- The `or`-chain over the three symbol value field variants
(`main.py` lines 321-325). -/
def pickValue (b : Barcode) : Option String :=
  if strTruthy b.barcode_value then b.barcode_value
  else if strTruthy b.BarcodeValue then b.BarcodeValue
  else b.value

/-- The `for barcode in barcodes` loop (`main.py` lines 320-327):
return `str(value)` for the first symbol whose picked value is truthy. -/
def firstValue : List Barcode → Option String
  | [] => none
  | b :: rest => if strTruthy (pickValue b) then pickValue b else firstValue rest

/-- `decode_datamatrix` (`main.py` lines 292-330), as a function from the
behaviour of the open-and-scan step to the returned optional text and the
log records it emits. Every internal failure branch is caught in the
source, so the embedding is a total function: nothing is re-raised. -/
def decode_datamatrix : ScanOutcome → Option String × List LogMessage
  | .apiException msg =>
      (none, [⟨Severity.error, "Ошибка Cloudmersive API при распознавании: " ++ msg⟩])
  | .otherException msg =>
      (none, [⟨Severity.error, "Не удалось отправить изображение в Cloudmersive API: " ++ msg⟩])
  | .success none =>
      (none, [⟨Severity.warning, "Пустой ответ от Cloudmersive API"⟩])
  | .success (some r) =>
      match pickBarcodes r with
      | some (b :: bs) =>
          match firstValue (b :: bs) with
          | some v => (some v, [])
          | none => (none, [⟨Severity.info, "Cloudmersive API не предоставил текст распознанного кода"⟩])
      | _ => (none, [⟨Severity.info, "Cloudmersive API не вернул распознанные штрихкоды"⟩])

/-- Severities of the log records one `decode_datamatrix` call emits. -/
def sevs (o : ScanOutcome) : List Severity :=
  (decode_datamatrix o).2.map LogMessage.severity

/-- An inbound Telegram message as `handle_image` inspects it: the
`file_id`s of the photo sizes (empty list when the message has no photo)
and the `file_id` of the attached document, if any. -/
structure Message where
  photo : List String
  document : Option String
  deriving Repr, DecidableEq

/-- An inbound update; `update.message` may be `None`. -/
structure Update where
  message : Option Message
  deriving Repr, DecidableEq

/-- Behaviour of `context.bot.get_file` plus `download_to_drive`:
either both succeed or an exception is raised. -/
inductive DownloadResult
  | ok
  | raise (msg : String)
  deriving Repr, DecidableEq

/-- The environment one `handle_image` invocation runs against: the
download step's behaviour, whether `self._barcode_api` is initialized,
the scan step's behaviour, and whether `tmp_path.unlink` raises. -/
structure HandlerEnv where
  download : DownloadResult
  apiAvailable : Bool
  scan : ScanOutcome
  unlinkFails : Bool
  deriving Repr, DecidableEq

/-- Observable outcome of one `handle_image` invocation. `tmpLeaked` is
true when the invocation's uniquely named temporary file still exists in
storage at return; `raised` holds an exception that escaped the handler. -/
structure HandlerResult where
  replies : List String
  logs : List LogMessage
  downloadAttempted : Bool
  tmpCreated : Bool
  tmpLeaked : Bool
  raised : Option String
  deriving Repr, DecidableEq

/-- Stands for the unique `NamedTemporaryFile` path of one invocation;
the claims only concern its presence, not its name. -/
def tmpName : String := "/tmp/tmpXXXXXXXX.jpg"

/-- The `file_id` selection of `handle_image` (`main.py` lines 255-259):
last photo size when the message has a photo, else the document. -/
def fileIdOf (m : Message) : Option String :=
  match m.photo.getLast? with
  | some fid => some fid
  | none => m.document

/-- `BotApp.handle_image` (`main.py` lines 250-289). The temporary file
is created before the download; only the decode-and-reply step sits in a
`try`/`finally` whose `finally` unlinks the file. -/
def handle_image (u : Update) (env : HandlerEnv) : HandlerResult :=
  match u.message with
  | none =>
      { replies := [], logs := [], downloadAttempted := false,
        tmpCreated := false, tmpLeaked := false, raised := none }
  | some m =>
      if strTruthy (fileIdOf m) then
        match env.download with
        | .raise msg =>
            { replies := [], logs := [], downloadAttempted := true,
              tmpCreated := true, tmpLeaked := true, raised := some msg }
        | .ok =>
            let dlLog : LogMessage := ⟨Severity.info, "Изображение скачано: " ++ tmpName⟩
            if env.apiAvailable then
              let dres := decode_datamatrix env.scan
              let decoded := dres.1
              let replyAndLog :=
                if strTruthy decoded then
                  (["Найденный код: " ++ decoded.getD ""],
                   [(⟨Severity.info, "Код успешно распознан: " ++ decoded.getD ""⟩ : LogMessage)])
                else
                  (["Не удалось распознать DataMatrix на изображении."],
                   [(⟨Severity.warning, "DataMatrix не найден на изображении"⟩ : LogMessage)])
              let cleanup :=
                if env.unlinkFails then
                  (true, [(⟨Severity.warning, "Не удалось удалить временный файл " ++ tmpName⟩ : LogMessage)])
                else
                  (false, ([] : List LogMessage))
              { replies := replyAndLog.1,
                logs := dlLog :: dres.2 ++ replyAndLog.2 ++ cleanup.2,
                downloadAttempted := true, tmpCreated := true,
                tmpLeaked := cleanup.1, raised := none }
            else
              { replies := ["Сервис распознавания недоступен."],
                logs := [dlLog, ⟨Severity.error, "Cloudmersive API клиент не инициализирован"⟩],
                downloadAttempted := true, tmpCreated := true,
                tmpLeaked := true, raised := none }
      else
        { replies := ["Не удалось получить изображение."], logs := [],
          downloadAttempted := false, tmpCreated := false,
          tmpLeaked := false, raised := none }

/-- The reply mapping of spec §4.4 step 4, as `handle_image` words it. -/
def replyFor : Option String → String
  | some t => "Найденный код: " ++ t
  | none => "Не удалось распознать DataMatrix на изображении."

/-- One operation on the log channel: `QueueLogger.emit` putting a
formatted line into `LOG_QUEUE`, or `poll_log_queue` draining it. -/
inductive LogOp
  | publish (m : String)
  | drain
  deriving Repr, DecidableEq

/-- `LOG_QUEUE.get_nowait`: front element and rest, or `Empty`. -/
def get_nowait : List String → Option (String × List String)
  | [] => none
  | m :: rest => some (m, rest)

/-- The `while True: get_nowait / except Empty: break` loop of
`poll_log_queue` (`main.py` lines 149-157): the messages appended to the
log widget, in order, and the queue left behind. -/
def drainLoop : List String → List String × List String
  | [] => ([], [])
  | m :: rest =>
      let r := drainLoop rest
      (m :: r.1, r.2)

/-- Run a sequence of publish/drain operations against the FIFO queue,
collecting each drain's batch; returns the batches and the final queue. -/
def runOps : List LogOp → List String → List (List String) × List String
  | [], q => ([], q)
  | .publish m :: rest, q => runOps rest (q ++ [m])
  | .drain :: rest, q =>
      let r := runOps rest (drainLoop q).2
      ((drainLoop q).1 :: r.1, r.2)

/-- The messages published by a sequence of operations, in order. -/
def publishedOf : List LogOp → List String
  | [] => []
  | .publish m :: rest => m :: publishedOf rest
  | .drain :: rest => publishedOf rest

/-- What `BotConfig.load` finds in `config.json`: the file is missing,
fails to parse as JSON, or parses with the two optional string fields
read by `data.get`. -/
inductive ConfigFile
  | missing
  | malformed (err : String)
  | parsed (token : Option String) (api_key : Option String)
  deriving Repr, DecidableEq

structure BotConfig where
  token : String
  api_key : String
  deriving Repr, DecidableEq

/-- Python's `str.strip()`: drop whitespace from both ends. -/
def pstrip (s : String) : String :=
  String.mk (((s.data.dropWhile fun c => c.isWhitespace).reverse.dropWhile
    fun c => c.isWhitespace).reverse)

/-- `BotConfig.load` (`main.py` lines 48-60). The success log sits inside
`if token and api_key:`; the constructed config is returned either way. -/
def BotConfig.load : ConfigFile → Option BotConfig × List LogMessage
  | .missing => (none, [])
  | .malformed err => (none, [⟨Severity.error, "Ошибка чтения config.json: " ++ err⟩])
  | .parsed t k =>
      let token := pstrip (t.getD "")
      let api_key := pstrip (k.getD "")
      if token ≠ "" ∧ api_key ≠ "" then
        (some ⟨token, api_key⟩, [⟨Severity.info, "Конфигурация успешно загружена"⟩])
      else
        (some ⟨token, api_key⟩, [])

/-- The lifecycle state touched by stopping: the `_stop_event` flag,
whether `self._application` is set (it is never reset to `None`), the
`shutdown_bot` tasks scheduled by `on_close`, how many times the shutdown
sequence body (updater stop, application stop, application shutdown,
status update) has executed, and the status line. -/
structure BotState where
  stopEvent : Bool
  applicationSet : Bool
  pendingShutdownTasks : Nat
  shutdownRuns : Nat
  status : String
  logs : List LogMessage
  deriving Repr, DecidableEq

/-- `BotApp.shutdown_bot` (`main.py` lines 216-226): returns early only
when `_application is None`; otherwise runs the full shutdown sequence
and sets the status, with no guard against running again. -/
def shutdown_bot (s : BotState) : BotState :=
  if s.applicationSet then
    { s with shutdownRuns := s.shutdownRuns + 1,
             status := "Бот остановлен",
             logs := s.logs ++ [⟨Severity.info, "Остановка бота"⟩] }
  else s

/-- `BotApp.on_close` (`main.py` lines 228-235): sets the stop flag and,
when the application exists, schedules one more `shutdown_bot` task. -/
def on_close (s : BotState) : BotState :=
  let s1 := { s with stopEvent := true }
  if s1.applicationSet then
    { s1 with pendingShutdownTasks := s1.pendingShutdownTasks + 1 }
  else s1

/-- Apply `on_close` n times (n window-close requests). -/
def iterClose : Nat → BotState → BotState
  | 0, s => s
  | n + 1, s => iterClose n (on_close s)

/-- Run n scheduled `shutdown_bot` tasks. -/
def runTasks : Nat → BotState → BotState
  | 0, s => s
  | n + 1, s => runTasks n (shutdown_bot s)

/-- The stop scenario of `_run_async_bot` (`main.py` lines 201-214 and
228-235): n `on_close` calls arrive while polling; the scheduled
`shutdown_bot` tasks run on the event loop; the polling loop observes the
flag, exits, and its `finally` awaits `shutdown_bot` once more. -/
def stopScenario (n : Nat) (s : BotState) : BotState :=
  let s1 := iterClose n s
  let s2 := runTasks s1.pendingShutdownTasks s1
  shutdown_bot s2

/-- The state while `Polling`: application built, flag clear. -/
def pollingInit : BotState :=
  { stopEvent := false, applicationSet := true, pendingShutdownTasks := 0,
    shutdownRuns := 0, status := "Бот запущен и ожидает сообщения", logs := [] }

theorem strTruthy_none : strTruthy none = false := rfl

theorem strTruthy_some (s : String) : strTruthy (some s) = decide (s ≠ "") := rfl

/-- Every value the symbol loop returns passed the truthiness check, so
it is never the empty string. -/
theorem firstValue_ne_empty :
    ∀ (bs : List Barcode) (v : String), firstValue bs = some v → v ≠ "" := by
  intro bs
  induction bs with
  | nil => intro v h; simp [firstValue] at h
  | cons b rest ih =>
    intro v h
    by_cases hb : strTruthy (pickValue b)
    · rw [firstValue, if_pos hb] at h
      rw [h] at hb
      simpa [strTruthy] using hb
    · rw [firstValue, if_neg hb] at h
      exact ih v h

/-- `decode_datamatrix` never returns `some ""`. -/
theorem decode_value_ne_empty :
    ∀ (o : ScanOutcome) (v : String), (decode_datamatrix o).1 = some v → v ≠ "" := by
  intro o v h
  match o with
  | .apiException m => simp [decode_datamatrix] at h
  | .otherException m => simp [decode_datamatrix] at h
  | .success none => simp [decode_datamatrix] at h
  | .success (some r) =>
    rcases hpb : pickBarcodes r with _ | bs
    · simp [decode_datamatrix, hpb] at h
    · cases bs with
      | nil => simp [decode_datamatrix, hpb] at h
      | cons b rest =>
        rcases hfv : firstValue (b :: rest) with _ | w
        · simp [decode_datamatrix, hpb, hfv] at h
        · have : w = v := by simpa [decode_datamatrix, hpb, hfv] using h
          exact this ▸ firstValue_ne_empty (b :: rest) w hfv

/-- Every drain returns the whole queue in FIFO order and leaves it empty. -/
theorem drainLoop_eq : ∀ q : List String, drainLoop q = (q, []) := by
  intro q
  induction q with
  | nil => rfl
  | cons m rest ih => simp [drainLoop, ih]

/-- Concatenating the drained batches and the final queue recovers the
published sequence, in order, for any starting queue. -/
theorem runOps_concat :
    ∀ (ops : List LogOp) (q : List String),
      ((runOps ops q).1).flatten ++ (runOps ops q).2 = q ++ publishedOf ops := by
  intro ops
  induction ops with
  | nil => intro q; simp [runOps, publishedOf]
  | cons op rest ih =>
    intro q
    cases op with
    | publish m =>
      have := ih (q ++ [m])
      simp [runOps, publishedOf, this]
    | drain =>
      have := ih []
      simp [runOps, publishedOf, drainLoop_eq, this]

/-- Claim C1 (code evaluated at the failing input): a single `on_close`
while polling, with the application initialized, makes the shutdown
sequence body execute twice — once by the `shutdown_bot` task scheduled in
`on_close` and once by the `finally` block of `_run_async_bot` — and two
`on_close` calls make it execute three times, because `shutdown_bot` has
no once-only guard (`_application` is never reset to `None`). The claimed
exactly-once execution fails. -/
theorem claim_C1_shutdown_runs_twice :
    (stopScenario 1 pollingInit).shutdownRuns = 2
      ∧ (stopScenario 2 pollingInit).shutdownRuns = 3 :=
  ⟨rfl, rfl⟩

/-- Claim C2 (code evaluated at the failing input): a photo message with
the recognition client uninitialized (`_barcode_api is None`) takes the
early return at lines 272-275 of `main.py`, after the temporary file was
created and the download succeeded, and the file is still present when
`handle_image` returns — the claimed deletion on every exit path fails. -/
theorem claim_C2_temp_file_leak :
    (handle_image ⟨some ⟨["f1"], none⟩⟩
        ⟨DownloadResult.ok, false, ScanOutcome.success none, false⟩).tmpCreated = true
      ∧ (handle_image ⟨some ⟨["f1"], none⟩⟩
        ⟨DownloadResult.ok, false, ScanOutcome.success none, false⟩).tmpLeaked = true :=
  ⟨rfl, rfl⟩

/-- Claim C3: for every behaviour of the open-and-scan step — transport
exception, any other exception, empty response, malformed response —
`decode_datamatrix` returns a value rather than raising (it is a total
function into `Option String × List LogMessage`), and whenever it returns
`None` it has emitted a log message describing the cause. -/
theorem claim_C3_decode_never_raises :
    ∀ o : ScanOutcome, (decode_datamatrix o).1 = none → (decode_datamatrix o).2 ≠ [] := by
  intro o h
  match o with
  | .apiException m => simp [decode_datamatrix]
  | .otherException m => simp [decode_datamatrix]
  | .success none => simp [decode_datamatrix]
  | .success (some r) =>
    rcases hpb : pickBarcodes r with _ | bs
    · simp [decode_datamatrix, hpb]
    · cases bs with
      | nil => simp [decode_datamatrix, hpb]
      | cons b rest =>
        rcases hfv : firstValue (b :: rest) with _ | w
        · simp [decode_datamatrix, hpb, hfv]
        · simp [decode_datamatrix, hpb, hfv] at h

/-- Witness for C3 at a concrete transport failure. -/
theorem claim_C3_witness :
    (decode_datamatrix (ScanOutcome.apiException "connection refused")).2 ≠ [] :=
  claim_C3_decode_never_raises (ScanOutcome.apiException "connection refused") rfl

/-- Claim C4: for every sequence of publishes from a single producer
interleaved with drains, the concatenation of the drained batches plus
the messages still queued equals the published sequence in publish order
(no loss, no duplication, no reorder), and every drain empties the queue,
returning its whole contents in FIFO order without blocking. -/
theorem claim_C4_log_relay_fifo :
    (∀ ops : List LogOp,
        ((runOps ops []).1).flatten ++ (runOps ops []).2 = publishedOf ops)
      ∧ (∀ q : List String, drainLoop q = (q, [])) :=
  ⟨fun ops => by simpa using runOps_concat ops [], drainLoop_eq⟩

/-- Claim C5: when the primary collection field `barcodes` holds a
non-empty list whose head carries a non-empty `barcode_value`, that value
is returned, whatever the secondary field-name variants (`Barcodes`,
`barcode_results`, `BarcodeResults`, `BarcodeValue`, `value`) hold: the
probe order is a fixed priority list and the primary variant wins. -/
theorem claim_C5_field_priority :
    ∀ (r : ScanResponse) (b : Barcode) (bs : List Barcode) (v : String),
      r.barcodes = some (b :: bs) → b.barcode_value = some v → v ≠ "" →
      (decode_datamatrix (ScanOutcome.success (some r))).1 = some v := by
  intro r b bs v hr hb hv
  have hpb : pickBarcodes r = some (b :: bs) := by
    unfold pickBarcodes
    rw [hr]
    simp [listTruthy]
  have hpv : pickValue b = some v := by
    unfold pickValue
    rw [hb]
    simp [strTruthy, hv]
  have hfv : firstValue (b :: bs) = some v := by
    rw [firstValue, hpv, if_pos (by simp [strTruthy, hv])]
  simp [decode_datamatrix, hpb, hfv]

/-- Witness for C5: a response exposing both the primary and a secondary
collection variant, and both the primary and a secondary value variant;
the primary collection's primary value is returned. -/
theorem claim_C5_witness :
    (decode_datamatrix (ScanOutcome.success (some
        ⟨some [⟨some "PRIMARY", some "secondary", some "tertiary"⟩],
         some [⟨none, none, some "other"⟩], none, none⟩))).1 = some "PRIMARY" :=
  claim_C5_field_priority
    ⟨some [⟨some "PRIMARY", some "secondary", some "tertiary"⟩],
     some [⟨none, none, some "other"⟩], none, none⟩
    ⟨some "PRIMARY", some "secondary", some "tertiary"⟩ [] "PRIMARY"
    rfl rfl (by decide)

/-- Claim C6 counterexample: the claim's trichotomy — every `None` result
carries either an error-severity log (transport/API failure) or an
informational log (zero symbols) — is false: a normal return whose
response object is `None` yields `None` with a WARNING-severity log,
which is neither of the two claimed severities. -/
theorem claim_C6_counterexample :
    ¬ (∀ o : ScanOutcome, (decode_datamatrix o).1 = none →
        sevs o = [Severity.error] ∨ sevs o = [Severity.info]) := by
  intro h
  rcases h (ScanOutcome.success none) rfl with h2 | h2 <;>
    simp [sevs, decode_datamatrix] at h2

/-- Claim C6 as amended: the remote decoder distinguishes four outcomes,
never by the returned value but by log severity alone — transport/API
failure: `None` with one ERROR log; empty (`None`) response: `None` with
one WARNING log; no detected symbols or no symbol with a decodable value:
`None` with one INFO log; decodable value found: `Some(text)` with no log
from the decoder itself. -/
theorem claim_C6_outcome_severities :
    (∀ msg : String, (decode_datamatrix (ScanOutcome.apiException msg)).1 = none
        ∧ sevs (ScanOutcome.apiException msg) = [Severity.error])
      ∧ (∀ msg : String, (decode_datamatrix (ScanOutcome.otherException msg)).1 = none
        ∧ sevs (ScanOutcome.otherException msg) = [Severity.error])
      ∧ ((decode_datamatrix (ScanOutcome.success none)).1 = none
        ∧ sevs (ScanOutcome.success none) = [Severity.warning])
      ∧ (∀ r : ScanResponse, listTruthy (pickBarcodes r) = false →
        (decode_datamatrix (ScanOutcome.success (some r))).1 = none
          ∧ sevs (ScanOutcome.success (some r)) = [Severity.info])
      ∧ (∀ (r : ScanResponse) (b : Barcode) (bs : List Barcode),
        pickBarcodes r = some (b :: bs) → firstValue (b :: bs) = none →
        (decode_datamatrix (ScanOutcome.success (some r))).1 = none
          ∧ sevs (ScanOutcome.success (some r)) = [Severity.info])
      ∧ (∀ (r : ScanResponse) (b : Barcode) (bs : List Barcode) (v : String),
        pickBarcodes r = some (b :: bs) → firstValue (b :: bs) = some v →
        decode_datamatrix (ScanOutcome.success (some r)) = (some v, [])) := by
  refine ⟨fun msg => ⟨rfl, rfl⟩, fun msg => ⟨rfl, rfl⟩, ⟨rfl, rfl⟩,
    fun r h => ?_, fun r b bs hpb hfv => ?_, fun r b bs v hpb hfv => ?_⟩
  · rcases hpb : pickBarcodes r with _ | bs
    · exact ⟨by simp [decode_datamatrix, hpb], by simp [sevs, decode_datamatrix, hpb]⟩
    · cases bs with
      | nil => exact ⟨by simp [decode_datamatrix, hpb], by simp [sevs, decode_datamatrix, hpb]⟩
      | cons b rest => rw [hpb] at h; simp [listTruthy] at h
  · exact ⟨by simp [decode_datamatrix, hpb, hfv], by simp [sevs, decode_datamatrix, hpb, hfv]⟩
  · simp [decode_datamatrix, hpb, hfv]

/-- Witness for C6 (amended) at a response with no collection field set:
`None` with one informational log. -/
theorem claim_C6_witness :
    (decode_datamatrix (ScanOutcome.success (some ⟨none, none, none, none⟩))).1 = none
      ∧ sevs (ScanOutcome.success (some ⟨none, none, none, none⟩)) = [Severity.info] :=
  claim_C6_outcome_severities.2.2.2.1 ⟨none, none, none, none⟩ rfl

/-- Claim C7 (code evaluated at the failing input): when the download
step raises, the exception escapes `handle_image` — the download sits
outside any `try` — so no reply is sent and no log entry is produced,
while the temporary file created just before is also left behind. The
claimed catch-and-convert-to-"not recognized"-reply fails. -/
theorem claim_C7_download_failure_propagates :
    handle_image ⟨some ⟨["f1"], none⟩⟩
        ⟨DownloadResult.raise "network unreachable", true, ScanOutcome.success none, false⟩
      = { replies := [], logs := [], downloadAttempted := true,
          tmpCreated := true, tmpLeaked := true, raised := some "network unreachable" } :=
  rfl

/-- Claim C8: on the decode path (message present with a usable file id,
download succeeded, recognition client initialized), exactly one reply is
sent, and it is determined solely by whether the decode result is
present: `Some(text)` yields the found-code reply carrying `text`, `None`
yields the not-recognized reply. -/
theorem claim_C8_reply_mapping :
    ∀ (m : Message) (env : HandlerEnv),
      strTruthy (fileIdOf m) = true → env.download = DownloadResult.ok →
      env.apiAvailable = true →
      (handle_image ⟨some m⟩ env).replies = [replyFor (decode_datamatrix env.scan).1] := by
  intro m env hfid hdl hapi
  rcases hd : (decode_datamatrix env.scan).1 with _ | t
  · simp [handle_image, hfid, hdl, hapi, hd, replyFor, strTruthy_none]
  · have ht : t ≠ "" := decode_value_ne_empty env.scan t hd
    simp [handle_image, hfid, hdl, hapi, hd, replyFor, strTruthy_some, ht]

/-- Witness for C8 at a concrete photo message whose scan finds nothing. -/
theorem claim_C8_witness :
    (handle_image ⟨some ⟨["fid1"], none⟩⟩
        ⟨DownloadResult.ok, true, ScanOutcome.success none, false⟩).replies
      = [replyFor (decode_datamatrix (ScanOutcome.success none)).1] :=
  claim_C8_reply_mapping ⟨["fid1"], none⟩
    ⟨DownloadResult.ok, true, ScanOutcome.success none, false⟩ (by decide) rfl rfl

/-- Claim C9 counterexample: with an existing, JSON-parsable config file
whose `api_key` field is empty, `BotConfig.load` emits no log at all —
the "successfully loaded" message is guarded by `if token and api_key:`,
so it is not emitted unconditionally as the claim states. -/
theorem claim_C9_counterexample :
    BotConfig.load (ConfigFile.parsed (some "123:ABC") (some ""))
      = (some ⟨"123:ABC", ""⟩, []) := by
  decide

/-- Claim C9 as amended: when the config file exists and parses, the
"successfully loaded" message is emitted exactly when both required
fields are non-empty after stripping; it is never emitted for a missing
or malformed file. -/
theorem claim_C9_success_log_iff_valid :
    (∀ t k : Option String,
      ((⟨Severity.info, "Конфигурация успешно загружена"⟩ : LogMessage)
          ∈ (BotConfig.load (ConfigFile.parsed t k)).2)
        ↔ (pstrip (t.getD "") ≠ "" ∧ pstrip (k.getD "") ≠ ""))
      ∧ (∀ e : String, (⟨Severity.info, "Конфигурация успешно загружена"⟩ : LogMessage)
          ∉ (BotConfig.load (ConfigFile.malformed e)).2)
      ∧ ((⟨Severity.info, "Конфигурация успешно загружена"⟩ : LogMessage)
          ∉ (BotConfig.load ConfigFile.missing).2) := by
  refine ⟨fun t k => ?_, fun e => ?_, ?_⟩
  · by_cases h : pstrip (t.getD "") ≠ "" ∧ pstrip (k.getD "") ≠ ""
    · simp [BotConfig.load, h]
    · simp [BotConfig.load, h]
  · simp [BotConfig.load]
  · simp [BotConfig.load]

/-- Claim C10: when the update carries no message, `handle_image` returns
immediately with no observable effect: no reply, no log, no download
attempt, no temporary file, nothing raised — whatever the environment. -/
theorem claim_C10_none_message_no_effect :
    ∀ env : HandlerEnv,
      handle_image ⟨none⟩ env =
        { replies := [], logs := [], downloadAttempted := false,
          tmpCreated := false, tmpLeaked := false, raised := none } :=
  fun _ => rfl
